import Mathlib

/-!
# KalDet: `ILDParallelPlanarMeasLayer`

A shallow embedding of `src/ild/common/ILDParallelPlanarMeasLayer.h`.

`Double_t` values live in a type parameter `α`, and the C library functions `cos` and `sin`
are passed to the constructor as functions `α → α`.  The definitions are therefore ordinary
computable functions (they run at `Float` with `Float.cos` and `Float.sin`), and the theorems
that need trigonometric identities are stated at `α = ℝ` with `Real.cos` and `Real.sin`:
rounding of IEEE doubles is not modelled there.  Theorems that only follow the data flow of
the constructor are stated for every `α`.
-/

/-! ## ROOT's `TVector3` -/

/-- Three Cartesian components, as in ROOT's `TVector3(x, y, z)`. -/
@[ext]
structure TVector3 (α : Type) where
  x : α
  y : α
  z : α

namespace TVector3

variable {α : Type}

/-- Scalar product, `TVector3::Dot`. -/
def Dot [Add α] [Mul α] (a b : TVector3 α) : α :=
  a.x * b.x + a.y * b.y + a.z * b.z

/-- Squared length, `TVector3::Mag2`. -/
def Mag2 [Add α] [Mul α] (a : TVector3 α) : α :=
  a.x * a.x + a.y * a.y + a.z * a.z

/-- Euclidean length, `TVector3::Mag`; the square root is passed in like `cos` and `sin`. -/
def Mag [Add α] [Mul α] (sqrt : α → α) (a : TVector3 α) : α :=
  sqrt (Mag2 a)

/-- Scalar multiple `c * v`, componentwise. -/
def scale [Mul α] (c : α) (v : TVector3 α) : TVector3 α :=
  ⟨c * v.x, c * v.y, c * v.z⟩

end TVector3

/-! ## The base class subobject -/

/-- The base class `ILDPlanarMeasLayer` is declared in `ILDPlanarMeasLayer.h`, which is not part
of the sources.  Its subobject is recorded as the twelve arguments its constructor is called
with, in the order of the call on line 30 of the header. -/
structure ILDPlanarMeasLayer (α M : Type) where
  min : M
  mout : M
  origin : TVector3 α
  normal : TVector3 α
  Bz : α
  SortingPolicy : α
  xiwidth : α
  zetawidth : α
  xioffset : α
  is_active : Bool
  CellID : Int
  name : String

/-- One value of a constructor argument list. -/
inductive CtorArg (α M : Type) where
  | material (m : M)
  | double (x : α)
  | vector (v : TVector3 α)
  | bool (b : Bool)
  | int (i : Int)
  | chars (s : String)

/-- The argument list the base class constructor receives, position by position. -/
def ILDPlanarMeasLayer.args {α M : Type} (b : ILDPlanarMeasLayer α M) : List (CtorArg α M) :=
  [.material b.min, .material b.mout, .vector b.origin, .vector b.normal, .double b.Bz,
   .double b.SortingPolicy, .double b.xiwidth, .double b.zetawidth, .double b.xioffset,
   .bool b.is_active, .int b.CellID, .chars b.name]

/-! ## `ILDParallelPlanarMeasLayer` -/

/-- The class: the base subobject followed by the four private fields, in declaration order. -/
structure ILDParallelPlanarMeasLayer (α M : Type) where
  base : ILDPlanarMeasLayer α M
  _r : α
  _phi : α
  _cos_phi : α
  _sin_phi : α

/-- Default value of the parameter `CellID`. -/
def ILDParallelPlanarMeasLayer.defaultCellID : Int := -1

/-- Default value of the parameter `name`. -/
def ILDParallelPlanarMeasLayer.defaultName : String := "ILDParallelPlanarMeasLayer"

/-- The argument list of the constructor of `ILDParallelPlanarMeasLayer` as the body sees it
(defaults filled in), position by position. -/
def ILDParallelPlanarMeasLayer.ctorArgs {α M : Type} (min mout : M)
    (r phi Bz SortingPolicy xiwidth zetawidth xioffset : α)
    (is_active : Bool) (CellID : Option Int) (name : Option String) : List (CtorArg α M) :=
  [.material min, .material mout, .double r, .double phi, .double Bz,
   .double SortingPolicy, .double xiwidth, .double zetawidth, .double xioffset,
   .bool is_active, .int (CellID.getD ILDParallelPlanarMeasLayer.defaultCellID),
   .chars (name.getD ILDParallelPlanarMeasLayer.defaultName)]

/-- The constructor `ILDParallelPlanarMeasLayer::ILDParallelPlanarMeasLayer` (lines 17-31).
`CellID` and `name` are `none` when the caller omits them.  The base class is initialised
first, then `_r`, `_phi`, `_cos_phi`, `_sin_phi` in declaration order, so `cos(_phi)` and
`sin(_phi)` read the already initialised field `_phi`.  The constructor has no failing path:
it neither tests its arguments nor throws. -/
def ILDParallelPlanarMeasLayer.ctor {α M : Type} [Mul α] [Zero α]
    (cos sin : α → α)
    (min mout : M) (r phi Bz SortingPolicy xiwidth zetawidth xioffset : α)
    (is_active : Bool) (CellID : Option Int) (name : Option String) :
    ILDParallelPlanarMeasLayer α M :=
  let base : ILDPlanarMeasLayer α M :=
    ⟨min, mout, ⟨r * cos phi, r * sin phi, 0⟩, ⟨cos phi, sin phi, 0⟩, Bz, SortingPolicy,
      xiwidth, zetawidth, xioffset, is_active,
      CellID.getD ILDParallelPlanarMeasLayer.defaultCellID,
      name.getD ILDParallelPlanarMeasLayer.defaultName⟩
  let _r := r
  let _phi := phi
  ⟨base, _r, _phi, cos _phi, sin _phi⟩

/-! ## The two overloads of `CalcXingPointWith` -/

/-- What a call of `CalcXingPointWith` leaves behind: the returned `Int_t` and the values of the
reference parameters `xx` and `phi` after the call. -/
structure XingResult (α : Type) where
  status : Int
  xx : TVector3 α
  phi : α

/-- Default value of the parameter `eps` in both declarations (`1.e-8`). -/
def ILDParallelPlanarMeasLayer.defaultEps {α : Type} [OfScientific α] : α := 1e-8

/-- The overload with a mode (lines 37-41).  It is virtual and only declared in the header, so
its body is the parameter `body`: a function of the object (read only, the method is `const`),
the track, the incoming values of `xx` and `phi`, the mode and the tolerance.  `eps` is `none`
when the caller omits it. -/
def ILDParallelPlanarMeasLayer.CalcXingPointWithMode {α M H : Type} [OfScientific α]
    (body : ILDParallelPlanarMeasLayer α M → H → TVector3 α → α → Int → α → XingResult α)
    (self : ILDParallelPlanarMeasLayer α M) (hel : H) (xx : TVector3 α) (phi : α)
    (mode : Int) (eps : Option α) : XingResult α :=
  body self hel xx phi mode (eps.getD ILDParallelPlanarMeasLayer.defaultEps)

/-- The overload without a mode (lines 44-51): `return CalcXingPointWith(hel,xx,phi,0,eps);`. -/
def ILDParallelPlanarMeasLayer.CalcXingPointWith {α M H : Type} [OfScientific α]
    (body : ILDParallelPlanarMeasLayer α M → H → TVector3 α → α → Int → α → XingResult α)
    (self : ILDParallelPlanarMeasLayer α M) (hel : H) (xx : TVector3 α) (phi : α)
    (eps : Option α) : XingResult α :=
  ILDParallelPlanarMeasLayer.CalcXingPointWithMode body self hel xx phi 0
    (some (eps.getD ILDParallelPlanarMeasLayer.defaultEps))

/-! ## The life of an object -/

/-- A call of one of the member functions of the class on an existing object. -/
inductive MemberCall (α H : Type) where
  | withMode (hel : H) (xx : TVector3 α) (phi : α) (mode : Int) (eps : Option α)
  | withoutMode (hel : H) (xx : TVector3 α) (phi : α) (eps : Option α)

/-- One call: the object after the call and what the call returned.  Both member functions are
`const` and none of the four fields is `mutable`, so the object comes back as it went in. -/
def MemberCall.invoke {α M H : Type} [OfScientific α]
    (body : ILDParallelPlanarMeasLayer α M → H → TVector3 α → α → Int → α → XingResult α)
    (self : ILDParallelPlanarMeasLayer α M) :
    MemberCall α H → ILDParallelPlanarMeasLayer α M × XingResult α
  | .withMode hel xx phi mode eps =>
      (self, ILDParallelPlanarMeasLayer.CalcXingPointWithMode body self hel xx phi mode eps)
  | .withoutMode hel xx phi eps =>
      (self, ILDParallelPlanarMeasLayer.CalcXingPointWith body self hel xx phi eps)

/-- The object after a sequence of calls. -/
def ILDParallelPlanarMeasLayer.afterCalls {α M H : Type} [OfScientific α]
    (body : ILDParallelPlanarMeasLayer α M → H → TVector3 α → α → Int → α → XingResult α) :
    ILDParallelPlanarMeasLayer α M → List (MemberCall α H) → ILDParallelPlanarMeasLayer α M
  | self, [] => self
  | self, c :: cs => ILDParallelPlanarMeasLayer.afterCalls body (c.invoke body self).1 cs

/-! ## The crossing status, from the specification -/

/-- Modelled from the spec: the helix class `TVTrack` belongs to another library; section 6 of
the spec lists what the crossing algorithm reads from it, of which the status needs the centre
and the radius of the transverse circle. -/
structure Helix (α : Type) where
  xc : α
  yc : α
  circleRadius : α

/-- Modelled from the spec: the outcomes of `computeCrossing` named in sections 4.2, 7 and 8, a
status code or the rejection of a degenerate input (section 4.2 calls the rejection
`InvalidTrajectory`, sections 7 and 8 `DegenerateTrajectory`). -/
inductive CrossingOutcome where
  | status (code : Int)
  | DegenerateTrajectory
  deriving DecidableEq

/-- Modelled from the spec: the perpendicular distance `d` of section 4.2, the circle centre
projected onto the plane's normal, measured from the plane's origin. -/
def ILDParallelPlanarMeasLayer.perpendicularDistance {α M : Type} [Add α] [Sub α] [Mul α]
    (self : ILDParallelPlanarMeasLayer α M) (hel : Helix α) : α :=
  (hel.xc - self.base.origin.x) * self.base.normal.x
    + (hel.yc - self.base.origin.y) * self.base.normal.y

/-- Modelled from the spec: the status of `computeCrossing`, that is of the body of the
five-argument `CalcXingPointWith`, which the header only declares.  Sections 4.2, 7 and 8: a
plane radius of 0 or a circle radius of 0 is a precondition violation, fatal to the call and
rejected as `DegenerateTrajectory`.  Section 4.2, for the other inputs: if
`|d| > circleRadius + eps` there is no intersection (status 0); if `|d|` is within `eps` of
`circleRadius` the tangential solution is accepted (status 1); otherwise one of two solutions is
accepted per `mode` (status 2). -/
def ILDParallelPlanarMeasLayer.computeCrossingStatus {α M : Type} [LinearOrderedField α]
    (self : ILDParallelPlanarMeasLayer α M) (hel : Helix α) (_mode : Int) (eps : α) :
    CrossingOutcome :=
  if self._r = 0 ∨ hel.circleRadius = 0 then .DegenerateTrajectory
  else
    let d := self.perpendicularDistance hel
    if |d| > hel.circleRadius + eps then .status 0
    else if |(|d| - hel.circleRadius)| ≤ eps then .status 1
    else .status 2

/-! ## Theorems -/

/-- C1: for every radius `r` and azimuth `phi` the constructor hands the base plane the origin
`(r*cos(phi), r*sin(phi), 0)` and the normal `(cos(phi), sin(phi), 0)`, both functions applied
to the argument `phi` itself. -/
theorem ctor_origin_normal {α M : Type} [Mul α] [Zero α] (cos sin : α → α)
    (min mout : M) (r phi Bz SortingPolicy xiwidth zetawidth xioffset : α)
    (is_active : Bool) (CellID : Option Int) (name : Option String) :
    (ILDParallelPlanarMeasLayer.ctor cos sin min mout r phi Bz
        SortingPolicy xiwidth zetawidth xioffset is_active CellID name).base.origin
      = ⟨r * cos phi, r * sin phi, 0⟩ ∧
    (ILDParallelPlanarMeasLayer.ctor cos sin min mout r phi Bz
        SortingPolicy xiwidth zetawidth xioffset is_active CellID name).base.normal
      = ⟨cos phi, sin phi, 0⟩ :=
  ⟨rfl, rfl⟩

/-- A sequence of calls of the member functions returns the object it started from. -/
theorem ILDParallelPlanarMeasLayer.afterCalls_eq_self {α M H : Type} [OfScientific α]
    (body : ILDParallelPlanarMeasLayer α M → H → TVector3 α → α → Int → α → XingResult α)
    (self : ILDParallelPlanarMeasLayer α M) (calls : List (MemberCall α H)) :
    ILDParallelPlanarMeasLayer.afterCalls body self calls = self := by
  induction calls with
  | nil => rfl
  | cons c cs ih =>
    cases c <;> simpa [ILDParallelPlanarMeasLayer.afterCalls, MemberCall.invoke] using ih

/-- C2: for every helix, `xx`, `phi` and tolerance `eps`, the overload of `CalcXingPointWith`
without a mode returns the status, `xx` and `phi` that the overload with a mode returns for
`mode = 0` and the same `eps`; with `eps` omitted the two agree as well, and each of them runs
the body with `eps = 1e-8`. -/
theorem CalcXingPointWith_is_mode_zero {α M H : Type} [OfScientific α]
    (body : ILDParallelPlanarMeasLayer α M → H → TVector3 α → α → Int → α → XingResult α)
    (self : ILDParallelPlanarMeasLayer α M) (hel : H) (xx : TVector3 α) (phi eps : α) :
    ILDParallelPlanarMeasLayer.CalcXingPointWith body self hel xx phi (some eps)
      = ILDParallelPlanarMeasLayer.CalcXingPointWithMode body self hel xx phi 0 (some eps) ∧
    ILDParallelPlanarMeasLayer.CalcXingPointWith body self hel xx phi none
      = ILDParallelPlanarMeasLayer.CalcXingPointWithMode body self hel xx phi 0 none ∧
    ILDParallelPlanarMeasLayer.CalcXingPointWith body self hel xx phi none
      = body self hel xx phi 0 1e-8 ∧
    ∀ mode : Int,
      ILDParallelPlanarMeasLayer.CalcXingPointWithMode body self hel xx phi mode none
        = body self hel xx phi mode 1e-8 :=
  ⟨rfl, rfl, rfl, fun _ => rfl⟩

/-- C3: in a constructed object `_phi` is the argument `phi`, `_r` is the argument `r`,
`_cos_phi = cos(_phi)` and `_sin_phi = sin(_phi)`, and the same holds after any sequence of
calls of the member functions of the class. -/
theorem cached_fields_for_life {α M H : Type} [Mul α] [Zero α] [OfScientific α]
    (cos sin : α → α)
    (body : ILDParallelPlanarMeasLayer α M → H → TVector3 α → α → Int → α → XingResult α)
    (min mout : M) (r phi Bz SortingPolicy xiwidth zetawidth xioffset : α)
    (is_active : Bool) (CellID : Option Int) (name : Option String)
    (calls : List (MemberCall α H)) :
    (ILDParallelPlanarMeasLayer.afterCalls body
        (ILDParallelPlanarMeasLayer.ctor cos sin min mout r phi Bz SortingPolicy xiwidth
          zetawidth xioffset is_active CellID name) calls)._phi = phi ∧
    (ILDParallelPlanarMeasLayer.afterCalls body
        (ILDParallelPlanarMeasLayer.ctor cos sin min mout r phi Bz SortingPolicy xiwidth
          zetawidth xioffset is_active CellID name) calls)._r = r ∧
    (ILDParallelPlanarMeasLayer.afterCalls body
        (ILDParallelPlanarMeasLayer.ctor cos sin min mout r phi Bz SortingPolicy xiwidth
          zetawidth xioffset is_active CellID name) calls)._cos_phi
      = cos (ILDParallelPlanarMeasLayer.afterCalls body
        (ILDParallelPlanarMeasLayer.ctor cos sin min mout r phi Bz SortingPolicy xiwidth
          zetawidth xioffset is_active CellID name) calls)._phi ∧
    (ILDParallelPlanarMeasLayer.afterCalls body
        (ILDParallelPlanarMeasLayer.ctor cos sin min mout r phi Bz SortingPolicy xiwidth
          zetawidth xioffset is_active CellID name) calls)._sin_phi
      = sin (ILDParallelPlanarMeasLayer.afterCalls body
        (ILDParallelPlanarMeasLayer.ctor cos sin min mout r phi Bz SortingPolicy xiwidth
          zetawidth xioffset is_active CellID name) calls)._phi := by
  rw [ILDParallelPlanarMeasLayer.afterCalls_eq_self]
  exact ⟨rfl, rfl, rfl, rfl⟩

/-- C9: the constructor passes `min`, `mout`, `Bz`, `SortingPolicy`, `xiwidth`, `zetawidth`,
`xioffset`, `is_active`, `CellID` and `name` to the base class unchanged and at the position
they have in its own argument list (positions 0, 1 and 4 to 11; positions 2 and 3 hold `r`
and `phi`), whether the caller gives `CellID` and `name` or omits them; an omitted `CellID` is
passed on as `-1` and an omitted `name` as `"ILDParallelPlanarMeasLayer"`. -/
theorem ctor_forwards_arguments {α M : Type} [Mul α] [Zero α] (cos sin : α → α)
    (min mout : M) (r phi Bz SortingPolicy xiwidth zetawidth xioffset : α)
    (is_active : Bool) (CellID : Option Int) (name : Option String) :
    (ILDParallelPlanarMeasLayer.ctor cos sin min mout r phi Bz SortingPolicy xiwidth zetawidth
        xioffset is_active CellID name).base
      = ⟨min, mout, ⟨r * cos phi, r * sin phi, 0⟩, ⟨cos phi, sin phi, 0⟩, Bz, SortingPolicy,
          xiwidth, zetawidth, xioffset, is_active, CellID.getD (-1),
          name.getD "ILDParallelPlanarMeasLayer"⟩ ∧
    ((ILDParallelPlanarMeasLayer.ctor cos sin min mout r phi Bz SortingPolicy xiwidth zetawidth
        xioffset is_active CellID name).base.args.take 2
      = (ILDParallelPlanarMeasLayer.ctorArgs min mout r phi Bz SortingPolicy xiwidth zetawidth
          xioffset is_active CellID name).take 2) ∧
    ((ILDParallelPlanarMeasLayer.ctor cos sin min mout r phi Bz SortingPolicy xiwidth zetawidth
        xioffset is_active CellID name).base.args.drop 4
      = (ILDParallelPlanarMeasLayer.ctorArgs min mout r phi Bz SortingPolicy xiwidth zetawidth
          xioffset is_active CellID name).drop 4) ∧
    ((ILDParallelPlanarMeasLayer.ctor cos sin min mout r phi Bz SortingPolicy xiwidth zetawidth
        xioffset is_active CellID name).base.args.take 2
      = [CtorArg.material min, .material mout]) ∧
    ((ILDParallelPlanarMeasLayer.ctor cos sin min mout r phi Bz SortingPolicy xiwidth zetawidth
        xioffset is_active CellID name).base.args.drop 4
      = [CtorArg.double Bz, .double SortingPolicy, .double xiwidth, .double zetawidth,
          .double xioffset, .bool is_active, .int (CellID.getD (-1)),
          .chars (name.getD "ILDParallelPlanarMeasLayer")]) ∧
    ((ILDParallelPlanarMeasLayer.ctor cos sin min mout r phi Bz SortingPolicy xiwidth zetawidth
        xioffset is_active none none).base.args.drop 4
      = [CtorArg.double Bz, .double SortingPolicy, .double xiwidth, .double zetawidth,
          .double xioffset, .bool is_active, .int (-1),
          .chars "ILDParallelPlanarMeasLayer"]) ∧
    (∀ id : Int,
      (ILDParallelPlanarMeasLayer.ctor cos sin min mout r phi Bz SortingPolicy xiwidth
          zetawidth xioffset is_active (some id) none).base.args.drop 4
        = [CtorArg.double Bz, .double SortingPolicy, .double xiwidth, .double zetawidth,
            .double xioffset, .bool is_active, .int id,
            .chars "ILDParallelPlanarMeasLayer"]) ∧
    (∀ (id : Int) (nm : String),
      (ILDParallelPlanarMeasLayer.ctor cos sin min mout r phi Bz SortingPolicy xiwidth
          zetawidth xioffset is_active (some id) (some nm)).base.args.drop 4
        = [CtorArg.double Bz, .double SortingPolicy, .double xiwidth, .double zetawidth,
            .double xioffset, .bool is_active, .int id, .chars nm]) :=
  ⟨rfl, rfl, rfl, rfl, rfl, rfl, fun _ => rfl, fun _ _ => rfl⟩

/-- C5: for all `(r, phi)` the origin and the normal built by the constructor satisfy
`origin · normal = r` (over the reals). -/
theorem origin_dot_normal {M : Type} (min mout : M)
    (r phi Bz SortingPolicy xiwidth zetawidth xioffset : ℝ)
    (is_active : Bool) (CellID : Option Int) (name : Option String) :
    TVector3.Dot
      (ILDParallelPlanarMeasLayer.ctor Real.cos Real.sin min mout r phi Bz SortingPolicy
        xiwidth zetawidth xioffset is_active CellID name).base.origin
      (ILDParallelPlanarMeasLayer.ctor Real.cos Real.sin min mout r phi Bz SortingPolicy
        xiwidth zetawidth xioffset is_active CellID name).base.normal = r := by
  simp only [ILDParallelPlanarMeasLayer.ctor, TVector3.Dot]
  linear_combination r * Real.cos_sq_add_sin_sq phi

/-- Over the reals the Euclidean length of the origin built by the constructor is the absolute
value of the radius argument. -/
theorem ILDParallelPlanarMeasLayer.ctor_origin_mag_abs {M : Type} (min mout : M)
    (r phi Bz SortingPolicy xiwidth zetawidth xioffset : ℝ)
    (is_active : Bool) (CellID : Option Int) (name : Option String) :
    TVector3.Mag Real.sqrt
      (ILDParallelPlanarMeasLayer.ctor Real.cos Real.sin min mout r phi Bz SortingPolicy
        xiwidth zetawidth xioffset is_active CellID name).base.origin = |r| := by
  simp only [ILDParallelPlanarMeasLayer.ctor, TVector3.Mag, TVector3.Mag2]
  rw [← Real.sqrt_sq_eq_abs]
  congr 1
  linear_combination (r ^ 2) * Real.cos_sq_add_sin_sq phi

/-- C6: for every radius `r` of the domain of the constructor's contract (a distance; section
4.1 of the spec asks `r > 0`, and `r = 0` is covered as well) and every `phi`, the Euclidean
length of the origin `(r*cos(phi), r*sin(phi), 0)` is `r` (over the reals). -/
theorem origin_length_eq_radius {M : Type} (min mout : M)
    (r phi Bz SortingPolicy xiwidth zetawidth xioffset : ℝ)
    (is_active : Bool) (CellID : Option Int) (name : Option String) (hr : 0 ≤ r) :
    TVector3.Mag Real.sqrt
      (ILDParallelPlanarMeasLayer.ctor Real.cos Real.sin min mout r phi Bz SortingPolicy
        xiwidth zetawidth xioffset is_active CellID name).base.origin = r := by
  rw [ILDParallelPlanarMeasLayer.ctor_origin_mag_abs, abs_of_nonneg hr]

/-- Witness for C6: the plane of radius 100 at azimuth 0.15. -/
theorem origin_length_eq_radius_witness :
    (0 : ℝ) ≤ 100 ∧
    TVector3.Mag Real.sqrt
      (ILDParallelPlanarMeasLayer.ctor Real.cos Real.sin () () 100 0.15 0 0 0 0 0 true none
        none).base.origin = 100 :=
  ⟨by norm_num, origin_length_eq_radius () () 100 0.15 0 0 0 0 0 true none none (by norm_num)⟩

/-- C7: for all `(r, phi)` the normal built by the constructor has Euclidean length 1, and the
cached constants satisfy `_cos_phi^2 + _sin_phi^2 = 1` (over the reals). -/
theorem normal_unit_length {M : Type} (min mout : M)
    (r phi Bz SortingPolicy xiwidth zetawidth xioffset : ℝ)
    (is_active : Bool) (CellID : Option Int) (name : Option String) :
    TVector3.Mag Real.sqrt
      (ILDParallelPlanarMeasLayer.ctor Real.cos Real.sin min mout r phi Bz SortingPolicy
        xiwidth zetawidth xioffset is_active CellID name).base.normal = 1 ∧
    (ILDParallelPlanarMeasLayer.ctor Real.cos Real.sin min mout r phi Bz SortingPolicy
        xiwidth zetawidth xioffset is_active CellID name)._cos_phi ^ 2
      + (ILDParallelPlanarMeasLayer.ctor Real.cos Real.sin min mout r phi Bz SortingPolicy
        xiwidth zetawidth xioffset is_active CellID name)._sin_phi ^ 2 = 1 := by
  refine ⟨?_, Real.cos_sq_add_sin_sq phi⟩
  simp only [ILDParallelPlanarMeasLayer.ctor, TVector3.Mag, TVector3.Mag2]
  rw [← Real.sqrt_one]
  congr 1
  linear_combination Real.cos_sq_add_sin_sq phi

/-- C10: for every `(r, phi)` the normal has z component 0 and is orthogonal to the z axis
`(0, 0, 1)`, the origin has z component 0, and the origin is `r` times the normal,
component by component. -/
theorem plane_parallel_to_z {α M : Type} [Semiring α] (cos sin : α → α)
    (min mout : M) (r phi Bz SortingPolicy xiwidth zetawidth xioffset : α)
    (is_active : Bool) (CellID : Option Int) (name : Option String) :
    (ILDParallelPlanarMeasLayer.ctor cos sin min mout r phi Bz SortingPolicy xiwidth zetawidth
        xioffset is_active CellID name).base.normal.z = 0 ∧
    TVector3.Dot
      (ILDParallelPlanarMeasLayer.ctor cos sin min mout r phi Bz SortingPolicy xiwidth
        zetawidth xioffset is_active CellID name).base.normal ⟨0, 0, 1⟩ = 0 ∧
    (ILDParallelPlanarMeasLayer.ctor cos sin min mout r phi Bz SortingPolicy xiwidth zetawidth
        xioffset is_active CellID name).base.origin.z = 0 ∧
    (ILDParallelPlanarMeasLayer.ctor cos sin min mout r phi Bz SortingPolicy xiwidth zetawidth
        xioffset is_active CellID name).base.origin
      = TVector3.scale r
          (ILDParallelPlanarMeasLayer.ctor cos sin min mout r phi Bz SortingPolicy xiwidth
            zetawidth xioffset is_active CellID name).base.normal := by
  simp [ILDParallelPlanarMeasLayer.ctor, TVector3.Dot, TVector3.scale]

/-- C4: for every plane and every helix that meet the preconditions of the crossing query
(plane radius and circle radius not 0) and whose transverse circle does not reach the line of
the plane, that is whose perpendicular distance from the circle centre to the line exceeds the
circle radius by more than `eps`, the crossing query returns status 0, whatever the mode. -/
theorem no_crossing_status_zero {α M : Type} [LinearOrderedField α]
    (self : ILDParallelPlanarMeasLayer α M) (hel : Helix α) (mode : Int) (eps : α)
    (hplane : self._r ≠ 0) (hcircle : hel.circleRadius ≠ 0)
    (hfar : |self.perpendicularDistance hel| - hel.circleRadius > eps) :
    self.computeCrossingStatus hel mode eps = CrossingOutcome.status 0 := by
  have h : |self.perpendicularDistance hel| > hel.circleRadius + eps := by
    have := add_lt_add_right hfar hel.circleRadius
    simpa [add_comm] using this
  have hdeg : ¬ (self._r = 0 ∨ hel.circleRadius = 0) := by
    rintro (h0 | h0)
    · exact hplane h0
    · exact hcircle h0
  simp only [ILDParallelPlanarMeasLayer.computeCrossingStatus]
  rw [if_neg hdeg, if_pos h]

/-- Witness for C4: the plane built with `r = 100`, `phi = 0` and a circle of radius 60 about
`(250, 0)`, with `eps = 1e-8`: the distance 150 exceeds 60 by more than `eps`. -/
theorem no_crossing_status_zero_witness :
    (ILDParallelPlanarMeasLayer.ctor Real.cos Real.sin () () 100 0 0 0 0 0 0 true none
        none)._r ≠ 0 ∧
    (⟨250, 0, 60⟩ : Helix ℝ).circleRadius ≠ 0 ∧
    |(ILDParallelPlanarMeasLayer.ctor Real.cos Real.sin () () 100 0 0 0 0 0 0 true none
        none).perpendicularDistance (⟨250, 0, 60⟩ : Helix ℝ)| - (60 : ℝ) > 1e-8 ∧
    (ILDParallelPlanarMeasLayer.ctor Real.cos Real.sin () () 100 0 0 0 0 0 0 true none
        none).computeCrossingStatus (⟨250, 0, 60⟩ : Helix ℝ) 0 1e-8
      = CrossingOutcome.status 0 := by
  have hplane : (ILDParallelPlanarMeasLayer.ctor Real.cos Real.sin () () 100 0 0 0 0 0 0 true
      none none)._r ≠ 0 := by
    simp [ILDParallelPlanarMeasLayer.ctor]
  have hcircle : (⟨250, 0, 60⟩ : Helix ℝ).circleRadius ≠ 0 := by
    norm_num
  have hfar : |(ILDParallelPlanarMeasLayer.ctor Real.cos Real.sin () () 100 0 0 0 0 0 0 true
      none none).perpendicularDistance (⟨250, 0, 60⟩ : Helix ℝ)| - (60 : ℝ) > 1e-8 := by
    simp only [ILDParallelPlanarMeasLayer.ctor, ILDParallelPlanarMeasLayer.perpendicularDistance,
      Real.cos_zero, Real.sin_zero]
    norm_num
  exact ⟨hplane, hcircle, hfar, no_crossing_status_zero _ _ 0 1e-8 hplane hcircle hfar⟩
